import Mathlib

/-!
Verification development for the metrics gateway in `src/app.py`.

The program is a small web gateway: three metric routes each read a fixed
JSON file from a fixed results directory and return its parsed contents as
an HTTP JSON response (an empty object when the file is missing), and a
root route renders a static HTML template.

The embedding below translates `app.py` into Lean.  The Python standard
library pieces the program calls (`json.load`, `jsonify`, `os.path`) are
not part of the repository; they are modelled here at the JSON-value
level: `parse` models `json.load` on a practically sufficient subset of
JSON (integers rather than arbitrary floats, the common string escapes,
last-wins duplicate object keys as in Python dicts), and `serialize`
models the framework's canonical compact rendering of a JSON value into a
response body.  The filesystem is a map from paths to file states, and
every file operation passes the filesystem state through explicitly, so
that reads are visibly non-mutating.
-/

/-- JSON values as handled by the gateway: the result type of `json.load`
and the argument type of `jsonify` in `app.py`.  Numbers are modelled as
integers. -/
inductive Json where
  | null : Json
  | bool (b : Bool) : Json
  | num (n : Int) : Json
  | str (s : String) : Json
  | arr (xs : List Json) : Json
  | obj (kvs : List (String × Json)) : Json

/-- JSON escaping of a single character, as the serializer applies it to
string contents. -/
def escapeChar (c : Char) : String :=
  if c = '"' then "\\\""
  else if c = '\\' then "\\\\"
  else if c = '\n' then "\\n"
  else if c = '\t' then "\\t"
  else if c = '\r' then "\\r"
  else String.singleton c

/-- JSON escaping of a string body. -/
def escapeString (s : String) : String :=
  String.join (s.toList.map escapeChar)

mutual

/-- Canonical compact serialization of a JSON value, modelling the JSON
text that `jsonify` renders into the HTTP response body. -/
def serialize : Json → String
  | .null => "null"
  | .bool true => "true"
  | .bool false => "false"
  | .num n => toString n
  | .str s => "\"" ++ escapeString s ++ "\""
  | .arr xs => "[" ++ serializeElems xs ++ "]"
  | .obj kvs => "\x7b" ++ serializeMembers kvs ++ "\x7d"

/-- Comma-separated serialization of array elements. -/
def serializeElems : List Json → String
  | [] => ""
  | [x] => serialize x
  | x :: xs => serialize x ++ "," ++ serializeElems xs

/-- Comma-separated serialization of object members. -/
def serializeMembers : List (String × Json) → String
  | [] => ""
  | [(k, v)] => "\"" ++ escapeString k ++ "\":" ++ serialize v
  | (k, v) :: kvs =>
      "\"" ++ escapeString k ++ "\":" ++ serialize v ++ "," ++ serializeMembers kvs

end

/-- Whitespace skipping of the JSON reader (space, tab, newline, carriage
return, as in Python's `json` module). -/
def skipWs : List Char → List Char
  | [] => []
  | c :: cs =>
      if c = ' ' ∨ c = '\t' ∨ c = '\n' ∨ c = '\r' then skipWs cs else c :: cs

/-- Meaning of a backslash escape inside a JSON string literal (the
common single-character escapes; `\uXXXX` is outside the modelled
subset). -/
def unescapeChar (c : Char) : Option Char :=
  if c = '"' then some '"'
  else if c = '\\' then some '\\'
  else if c = '/' then some '/'
  else if c = 'n' then some '\n'
  else if c = 't' then some '\t'
  else if c = 'r' then some '\r'
  else if c = 'b' then some (Char.ofNat 8)
  else if c = 'f' then some (Char.ofNat 12)
  else none

/-- Reads the body of a JSON string literal after the opening quote,
returning the decoded characters and the rest of the input. -/
def parseStrChars : List Char → Option (List Char × List Char)
  | [] => none
  | '"' :: cs => some ([], cs)
  | '\\' :: e :: cs =>
      match unescapeChar e with
      | none => none
      | some c =>
          match parseStrChars cs with
          | none => none
          | some (body, rest) => some (c :: body, rest)
  | ['\\'] => none
  | c :: cs =>
      match parseStrChars cs with
      | none => none
      | some (body, rest) => some (c :: body, rest)

/-- Accumulates a run of decimal digits into a natural number, returning
the value and the rest of the input. -/
def parseDigitsAux (acc : Nat) : List Char → Nat × List Char
  | [] => (acc, [])
  | c :: cs =>
      if c.isDigit then parseDigitsAux (acc * 10 + (c.toNat - '0'.toNat)) cs
      else (acc, c :: cs)

/-- Reads a non-empty run of decimal digits as a natural number; rejects
a leading zero followed by further digits, as the JSON grammar does. -/
def parseDigits : List Char → Option (Nat × List Char)
  | [] => none
  | c :: cs =>
      if c.isDigit then
        if c == '0' && (match cs with | c2 :: _ => c2.isDigit | [] => false) then none
        else some (parseDigitsAux (c.toNat - '0'.toNat) cs)
      else none

/-- Dict-style combination of one parsed object member with the members
that follow it: a later binding of the same key wins, while the key keeps
its earliest position, as in a Python dict. -/
def insertMember (k : String) (v : Json) (kvs : List (String × Json)) :
    List (String × Json) :=
  match kvs.lookup k with
  | some v2 => (k, v2) :: kvs.filter (fun kv => kv.1 != k)
  | none => (k, v) :: kvs

mutual

/-- Reads one JSON value from the input, modelling the recursive-descent
reader of Python's `json` module on the modelled subset.  The fuel
argument strictly bounds the nesting depth; `parse` supplies enough fuel
for any input of the given length. -/
def parseVal : Nat → List Char → Option (Json × List Char)
  | 0, _ => none
  | fuel + 1, input =>
      match skipWs input with
      | 'n' :: 'u' :: 'l' :: 'l' :: rest => some (.null, rest)
      | 't' :: 'r' :: 'u' :: 'e' :: rest => some (.bool true, rest)
      | 'f' :: 'a' :: 'l' :: 's' :: 'e' :: rest => some (.bool false, rest)
      | '"' :: rest =>
          match parseStrChars rest with
          | none => none
          | some (body, rest2) => some (.str (String.mk body), rest2)
      | '-' :: rest =>
          match parseDigits rest with
          | none => none
          | some (n, rest2) => some (.num (-(n : Int)), rest2)
      | '[' :: rest =>
          (match skipWs rest with
           | ']' :: rest2 => some (.arr [], rest2)
           | more =>
               match parseElems fuel more with
               | none => none
               | some (xs, rest2) => some (.arr xs, rest2))
      | '\x7b' :: rest =>
          (match skipWs rest with
           | '\x7d' :: rest2 => some (.obj [], rest2)
           | more =>
               match parseMembers fuel more with
               | none => none
               | some (kvs, rest2) => some (.obj kvs, rest2))
      | c :: rest =>
          if c.isDigit then
            match parseDigits (c :: rest) with
            | none => none
            | some (n, rest2) => some (.num (n : Int), rest2)
          else none
      | [] => none

/-- Reads the non-empty element list of a JSON array, up to and including
the closing bracket. -/
def parseElems : Nat → List Char → Option (List Json × List Char)
  | 0, _ => none
  | fuel + 1, input =>
      match parseVal fuel input with
      | none => none
      | some (v, rest) =>
          match skipWs rest with
          | ',' :: rest2 =>
              (match parseElems fuel rest2 with
               | none => none
               | some (vs, rest3) => some (v :: vs, rest3))
          | ']' :: rest2 => some ([v], rest2)
          | _ => none

/-- Reads the non-empty member list of a JSON object, up to and including
the closing brace.  A repeated key overwrites the earlier value in place,
as a Python dict does. -/
def parseMembers : Nat → List Char → Option (List (String × Json) × List Char)
  | 0, _ => none
  | fuel + 1, input =>
      match skipWs input with
      | '"' :: rest =>
          (match parseStrChars rest with
           | none => none
           | some (keyChars, rest2) =>
               match skipWs rest2 with
               | ':' :: rest3 =>
                   (match parseVal fuel rest3 with
                    | none => none
                    | some (v, rest4) =>
                        match skipWs rest4 with
                        | ',' :: rest5 =>
                            (match parseMembers fuel rest5 with
                             | none => none
                             | some (kvs, rest6) =>
                                 some (insertMember (String.mk keyChars) v kvs, rest6))
                        | '\x7d' :: rest5 => some ([(String.mk keyChars, v)], rest5)
                        | _ => none)
               | _ => none)
      | _ => none

end

/-- Models `json.load` on a file's text: reads one JSON value and
requires only whitespace to follow, returning `none` on malformed
input. -/
def parse (text : String) : Option Json :=
  match parseVal (text.length + 1) text.toList with
  | none => none
  | some (v, rest) =>
      match skipWs rest with
      | [] => some v
      | _ => none

/-- State of one path on disk: absent, present but failing to open or
read (an `OSError` in Python), or present with the given text. -/
inductive FileState where
  | absent : FileState
  | unreadable : FileState
  | content (text : String) : FileState
deriving DecidableEq

/-- The filesystem, as the gateway observes it: a map from paths to file
states. -/
def FS : Type := String → FileState

/-- The exceptions that can escape a handler body in `app.py`: an
`OSError` from `open`/read, a `json.JSONDecodeError` from `json.load`, or
a `TemplateNotFound` from `render_template`. -/
inductive PyError where
  | osError : PyError
  | jsonDecodeError : PyError
  | templateNotFound : PyError
deriving DecidableEq

/-- An HTTP response as the framework sends it: status code, content
type, and body text. -/
structure HttpResponse where
  status : Nat
  contentType : String
  body : String
deriving DecidableEq

/-- Models `os.path.join` for the fixed relative components used in
`app.py`. -/
def joinPath (a b : String) : String := a ++ "/" ++ b

/-- Line 8 of `app.py`: the results directory, computed once at startup
from the base directory (the install location, kept abstract as a
parameter). -/
def LOG_DIR (baseDir : String) : String :=
  joinPath (joinPath baseDir "results") "logs"

/-- The full path the gateway reads for a given metrics file name, as
computed on line 11 of `app.py`. -/
def metricPath (baseDir filename : String) : String :=
  joinPath (LOG_DIR baseDir) filename

/-- Models `os.path.exists`: a pure read of the filesystem, returned
unchanged. -/
def osPathExists (p : String) (fs : FS) : Bool × FS :=
  (match fs p with
   | .absent => false
   | _ => true, fs)

/-- Models `open(path, "r")` followed by reading the whole file: the mode
is read-only, so the filesystem is returned unchanged; a file that fails
to open or read raises `OSError`. -/
def openRead (p : String) (fs : FS) : Except PyError String × FS :=
  (match fs p with
   | .content text => .ok text
   | _ => .error .osError, fs)

/-- Lines 10-15 of `app.py`: `load_json`.  Joins the file name onto the
results directory, returns the empty object when the path does not
exist, and otherwise opens, reads and parses the file, letting any
`OSError` or decode error propagate. -/
def load_json (filename : String) (baseDir : String) (fs : FS) :
    Except PyError Json × FS :=
  let path := metricPath baseDir filename
  let (ex, fs1) := osPathExists path fs
  if ex = false then (.ok (Json.obj []), fs1)
  else
    match openRead path fs1 with
    | (.error e, fs2) => (.error e, fs2)
    | (.ok text, fs2) =>
        match parse text with
        | some v => (.ok v, fs2)
        | none => (.error .jsonDecodeError, fs2)

/-- Models `jsonify`: an HTTP 200 response whose body is the serialized
JSON value, with the JSON content type. -/
def jsonify (v : Json) : HttpResponse :=
  ⟨200, "application/json", serialize v⟩

/-- The template folder, as the framework sees it: a map from template
names to their text. -/
def TemplateStore : Type := String → Option String

/-- Models `render_template`: looks the template up in the template
folder at call time and raises `TemplateNotFound` when absent. -/
def render_template (tpl : TemplateStore) (name : String) :
    Except PyError String :=
  match tpl name with
  | some html => .ok html
  | none => .error .templateNotFound

/-- The framework's conversion of an uncaught handler exception into a
response: an internal server error. -/
def errorResponse : HttpResponse :=
  ⟨500, "text/html; charset=utf-8", "Internal Server Error"⟩

/-- Wraps a metrics handler body: a returned value goes through
`jsonify`, an uncaught exception becomes the 500 response. -/
def respond (r : Except PyError Json) : HttpResponse :=
  match r with
  | .ok v => jsonify v
  | .error _ => errorResponse

/-- The four routes registered in `app.py`. -/
inductive Route where
  | index : Route
  | apiSerial : Route
  | apiParallel : Route
  | apiCompare : Route
deriving DecidableEq

/-- The metrics file name each route reads, read off the three handler
bodies on lines 21-31 of `app.py`; the index route reads none. -/
def routeFile : Route → Option String
  | .index => none
  | .apiSerial => some "serial_metrics.json"
  | .apiParallel => some "parallel_metrics.json"
  | .apiCompare => some "compare_metrics.json"

/-- Dispatch of one request, translating the four route handlers of
`app.py` (lines 17-31).  The filesystem state is threaded through every
file operation and returned alongside the response. -/
def handle (route : Route) (tpl : TemplateStore) (baseDir : String)
    (fs : FS) : HttpResponse × FS :=
  match route with
  | .index =>
      (match render_template tpl "index.html" with
       | .ok html => ⟨200, "text/html; charset=utf-8", html⟩
       | .error _ => errorResponse, fs)
  | .apiSerial =>
      let (r, fs2) := load_json "serial_metrics.json" baseDir fs
      (respond r, fs2)
  | .apiParallel =>
      let (r, fs2) := load_json "parallel_metrics.json" baseDir fs
      (respond r, fs2)
  | .apiCompare =>
      let (r, fs2) := load_json "compare_metrics.json" baseDir fs
      (respond r, fs2)

/-- A sequence of requests, each observing the filesystem as it is at
that request: the server keeps no state of its own between requests. -/
def processSeq (tpl : TemplateStore) (baseDir : String) :
    List (Route × FS) → List (HttpResponse × FS)
  | [] => []
  | (route, fs) :: rest => handle route tpl baseDir fs :: processSeq tpl baseDir rest

/-- Scalar (non-container) JSON values. -/
def isScalar : Json → Bool
  | .null => true
  | .bool _ => true
  | .num _ => true
  | .str _ => true
  | .arr _ => false
  | .obj _ => false

/-- Evaluation of `load_json` by the state of the one path it consults:
missing file gives the empty object, an unreadable file propagates the
`OSError`, and an existing file's text goes through `parse`, whose
failure propagates as a decode error.  The filesystem comes back
unchanged. -/
theorem load_json_eq_fileState (filename baseDir : String) (fs : FS) :
    load_json filename baseDir fs =
      ((match fs (metricPath baseDir filename) with
        | FileState.absent => Except.ok (Json.obj [])
        | FileState.unreadable => Except.error PyError.osError
        | FileState.content text =>
            match parse text with
            | some v => Except.ok v
            | none => Except.error PyError.jsonDecodeError), fs) := by
  unfold load_json osPathExists openRead
  cases h : fs (metricPath baseDir filename) <;> simp [h]
  cases parse _ <;> simp

/-- Evaluation of `handle` on a metric route: the response is the
wrapped result of `load_json` on that route's file. -/
theorem handle_metric_eq (route : Route) (n : String)
    (hr : routeFile route = some n) (tpl : TemplateStore)
    (baseDir : String) (fs : FS) :
    handle route tpl baseDir fs =
      (respond (load_json n baseDir fs).1, (load_json n baseDir fs).2) := by
  cases route <;> simp [routeFile] at hr <;> subst hr <;>
    · rcases hl : load_json _ baseDir fs with ⟨r, fs2⟩
      simp [handle, hl]

/-- The serializer renders the empty object as the two-character text of
an empty JSON object. -/
theorem serialize_empty_obj : serialize (Json.obj []) = "\x7b\x7d" := rfl

/-- A demonstration template folder holding an index page. -/
def tplDemo : TemplateStore := fun _ => some "<html><body>dashboard</body></html>"

/-- A filesystem with no files at all. -/
def fsAllAbsent : FS := fun _ => FileState.absent

/-- C1: for each of the three metrics operations, when the route's file
does not exist under the results directory, the response is HTTP 200
with body exactly the empty JSON object. -/
theorem metrics_absent_returns_empty_object (route : Route) (n : String)
    (hr : routeFile route = some n) (tpl : TemplateStore) (baseDir : String)
    (fs : FS) (h : fs (metricPath baseDir n) = FileState.absent) :
    (handle route tpl baseDir fs).1 =
      ⟨200, "application/json", "\x7b\x7d"⟩ := by
  rw [handle_metric_eq route n hr tpl baseDir fs]
  simp [load_json_eq_fileState, h, respond, jsonify, serialize_empty_obj]

/-- Witness for C1: on a filesystem with no files, the serial metrics
route answers 200 with body the empty JSON object. -/
theorem metrics_absent_returns_empty_object_witness :
    (handle Route.apiSerial tplDemo "/srv/app" fsAllAbsent).1 =
      ⟨200, "application/json", "\x7b\x7d"⟩ :=
  metrics_absent_returns_empty_object Route.apiSerial "serial_metrics.json"
    rfl tplDemo "/srv/app" fsAllAbsent rfl

/-- C2: for each metrics operation, a file that exists but whose text is
not valid JSON makes the parse failure propagate: the response is the
internal server error, not 200 and not the empty JSON object. -/
theorem metrics_malformed_surfaces_server_error (route : Route) (n : String)
    (hr : routeFile route = some n) (tpl : TemplateStore) (baseDir : String)
    (fs : FS) (t : String)
    (h : fs (metricPath baseDir n) = FileState.content t)
    (hp : parse t = none) :
    (handle route tpl baseDir fs).1 = errorResponse ∧
    (handle route tpl baseDir fs).1.status ≠ 200 ∧
    (handle route tpl baseDir fs).1.body ≠ "\x7b\x7d" := by
  have he : (handle route tpl baseDir fs).1 = errorResponse := by
    rw [handle_metric_eq route n hr tpl baseDir fs]
    simp [load_json_eq_fileState, h, hp, respond]
  refine ⟨he, ?_, ?_⟩ <;> rw [he] <;> decide

/-- A filesystem whose compare file holds text that is not valid
JSON. -/
def fsMalformed : FS := fun p =>
  if p = metricPath "/srv/app" "compare_metrics.json" then
    FileState.content "\x7bnot valid\x7d"
  else FileState.absent

/-- Witness for C2: with `compare_metrics.json` holding invalid JSON
text, the compare route does not answer 200. -/
theorem metrics_malformed_surfaces_server_error_witness :
    (handle Route.apiCompare tplDemo "/srv/app" fsMalformed).1.status ≠ 200 :=
  (metrics_malformed_surfaces_server_error Route.apiCompare
    "compare_metrics.json" rfl tplDemo "/srv/app" fsMalformed
    "\x7bnot valid\x7d" (by decide) (by rfl)).2.1

/-- A filesystem whose serial file holds valid JSON text that is not in
the serializer's canonical form (a leading space). -/
def fsSpaced : FS := fun p =>
  if p = metricPath "/srv/app" "serial_metrics.json" then
    FileState.content " \x7b\x7d"
  else FileState.absent

/-- Counterexample to C3 as stated: the serial file holds the valid JSON
text consisting of a space followed by an empty object, the route
answers HTTP 200, yet the body is not the verbatim file text —
serializing the parsed value is not the identity on the file
contents. -/
theorem metrics_body_not_verbatim_counterexample :
    fsSpaced (metricPath "/srv/app" "serial_metrics.json") =
      FileState.content " \x7b\x7d" ∧
    parse " \x7b\x7d" = some (Json.obj []) ∧
    (handle Route.apiSerial tplDemo "/srv/app" fsSpaced).1.status = 200 ∧
    (handle Route.apiSerial tplDemo "/srv/app" fsSpaced).1.body ≠ " \x7b\x7d" :=
  ⟨by decide, by rfl, by rfl, by decide⟩

/-- C3 (amended): for every metrics operation, when the file exists and
its text parses, the response is HTTP 200 whose body is the
serialization of the parsed value — the same JSON value as the file
contents, but re-rendered, so the body equals the file text exactly when
that text is already in canonical serialized form. -/
theorem metrics_body_serializes_parsed_value (route : Route) (n : String)
    (hr : routeFile route = some n) (tpl : TemplateStore) (baseDir : String)
    (fs : FS) (t : String) (v : Json)
    (h : fs (metricPath baseDir n) = FileState.content t)
    (hv : parse t = some v) :
    (handle route tpl baseDir fs).1 =
      ⟨200, "application/json", serialize v⟩ ∧
    (t = serialize v → (handle route tpl baseDir fs).1.body = t) := by
  have he : (handle route tpl baseDir fs).1 =
      ⟨200, "application/json", serialize v⟩ := by
    rw [handle_metric_eq route n hr tpl baseDir fs]
    simp [load_json_eq_fileState, h, hv, respond, jsonify]
  exact ⟨he, fun ht => by rw [he]; exact ht.symm⟩

/-- Appending on the left of a string is cancellative; this is what
makes distinct file names resolve to distinct paths under the one
results directory. -/
theorem string_append_left_cancel (s a b : String) (h : s ++ a = s ++ b) :
    a = b := by
  have hd := congrArg String.data h
  simp [String.data_append] at hd
  exact String.ext hd

/-- C4: the route-to-file mapping is fixed, one-to-one and
deterministic.  Each metric route's response depends only on the state
of its one fixed path under the results directory of the startup base
directory; it genuinely reads that path (two filesystems differing only
there can give different responses); and distinct routes read distinct
paths. -/
theorem route_file_mapping_fixed (tpl : TemplateStore) (baseDir : String) :
    (∀ route n fs fs2, routeFile route = some n →
        fs (metricPath baseDir n) = fs2 (metricPath baseDir n) →
        (handle route tpl baseDir fs).1 = (handle route tpl baseDir fs2).1) ∧
    (∀ route n, routeFile route = some n → ∃ fs fs2 : FS,
        (∀ p, p ≠ metricPath baseDir n → fs p = fs2 p) ∧
        (handle route tpl baseDir fs).1 ≠ (handle route tpl baseDir fs2).1) ∧
    (∀ r1 r2 n1 n2, routeFile r1 = some n1 → routeFile r2 = some n2 →
        r1 ≠ r2 → metricPath baseDir n1 ≠ metricPath baseDir n2) := by
  refine ⟨?_, ?_, ?_⟩
  · intro route n fs fs2 hr hfs
    rw [handle_metric_eq route n hr tpl baseDir fs,
      handle_metric_eq route n hr tpl baseDir fs2]
    simp [load_json_eq_fileState, hfs]
  · intro route n hr
    refine ⟨fun _ => FileState.absent,
      fun p => if p = metricPath baseDir n then FileState.content "[1]"
        else FileState.absent, fun p hp => by simp [hp], ?_⟩
    have hp : parse "[1]" = some (Json.arr [Json.num 1]) := by rfl
    rw [handle_metric_eq route n hr tpl baseDir _,
      handle_metric_eq route n hr tpl baseDir _]
    simp [load_json_eq_fileState, hp, respond, jsonify]
    decide
  · intro r1 r2 n1 n2 h1 h2 hne heq
    have := string_append_left_cancel _ _ _ heq
    cases r1 <;> cases r2 <;>
      first
        | exact hne rfl
        | exact Option.noConfusion h1
        | exact Option.noConfusion h2
        | exact absurd
            (((Option.some.inj h1).trans this).trans (Option.some.inj h2).symm)
            (by decide)

/-- Witness for C4: the serial response is unchanged between a
filesystem with no files and one that differs from it only away from the
serial path. -/
theorem route_file_mapping_fixed_witness :
    (handle Route.apiSerial tplDemo "/srv/app" fsAllAbsent).1 =
      (handle Route.apiSerial tplDemo "/srv/app" fsMalformed).1 :=
  (route_file_mapping_fixed tplDemo "/srv/app").1 Route.apiSerial
    "serial_metrics.json" fsAllAbsent fsMalformed rfl (by decide)

/-- A filesystem whose parallel file holds the canonical text of the
array 1, 2, 3. -/
def fsCanonicalArr : FS := fun p =>
  if p = metricPath "/srv/app" "parallel_metrics.json" then
    FileState.content "[1,2,3]"
  else FileState.absent

/-- Witness for the amended C3: with `parallel_metrics.json` holding the
canonical text of an array, the parallel route answers 200 with that
very text as body. -/
theorem metrics_body_serializes_parsed_value_witness :
    (handle Route.apiParallel tplDemo "/srv/app" fsCanonicalArr).1 =
      ⟨200, "application/json",
        serialize (Json.arr [Json.num 1, Json.num 2, Json.num 3])⟩ ∧
    (handle Route.apiParallel tplDemo "/srv/app" fsCanonicalArr).1.body =
      "[1,2,3]" :=
  have h := metrics_body_serializes_parsed_value Route.apiParallel
    "parallel_metrics.json" rfl tplDemo "/srv/app" fsCanonicalArr
    "[1,2,3]" (Json.arr [Json.num 1, Json.num 2, Json.num 3])
    (by decide) (by rfl)
  ⟨h.1, h.2 (by rfl)⟩

/-- C5: no file content is cached across requests.  Two successive
requests to the same metric route, each seeing its own filesystem state,
each answer from the file contents current at that request. -/
theorem successive_requests_reflect_current_file (route : Route)
    (n : String) (hr : routeFile route = some n) (tpl : TemplateStore)
    (baseDir : String) (fs1 fs2 : FS) (t1 t2 : String) (v1 v2 : Json)
    (h1 : fs1 (metricPath baseDir n) = FileState.content t1)
    (h2 : fs2 (metricPath baseDir n) = FileState.content t2)
    (hv1 : parse t1 = some v1) (hv2 : parse t2 = some v2) :
    (processSeq tpl baseDir [(route, fs1), (route, fs2)]).map Prod.fst =
      [jsonify v1, jsonify v2] := by
  simp only [processSeq, List.map]
  rw [handle_metric_eq route n hr tpl baseDir fs1,
    handle_metric_eq route n hr tpl baseDir fs2]
  simp [load_json_eq_fileState, h1, h2, hv1, hv2, respond]

/-- A filesystem whose serial file holds the number one. -/
def fsSerialOne : FS := fun p =>
  if p = metricPath "/srv/app" "serial_metrics.json" then
    FileState.content "1"
  else FileState.absent

/-- A filesystem whose serial file holds the number two. -/
def fsSerialTwo : FS := fun p =>
  if p = metricPath "/srv/app" "serial_metrics.json" then
    FileState.content "2"
  else FileState.absent

/-- Witness for C5: with the serial file changed from 1 to 2 between two
requests, the two responses carry the respective current values. -/
theorem successive_requests_reflect_current_file_witness :
    (processSeq tplDemo "/srv/app"
        [(Route.apiSerial, fsSerialOne), (Route.apiSerial, fsSerialTwo)]).map
        Prod.fst =
      [jsonify (Json.num 1), jsonify (Json.num 2)] :=
  successive_requests_reflect_current_file Route.apiSerial
    "serial_metrics.json" rfl tplDemo "/srv/app" fsSerialOne fsSerialTwo
    "1" "2" (Json.num 1) (Json.num 2) (by decide) (by decide)
    (by rfl) (by rfl)

/-- C6: the missing file is the only recovered failure.  `load_json`
returns the empty object when its path does not exist; an unreadable
file propagates the `OSError`; malformed contents propagate the decode
error; and an existing file yields the empty object only by literally
containing it. -/
theorem load_json_fallback_exactly_on_missing (filename baseDir : String)
    (fs : FS) :
    (fs (metricPath baseDir filename) = FileState.absent →
        (load_json filename baseDir fs).1 = .ok (Json.obj [])) ∧
    (fs (metricPath baseDir filename) = FileState.unreadable →
        (load_json filename baseDir fs).1 = .error PyError.osError) ∧
    (∀ t, fs (metricPath baseDir filename) = FileState.content t →
        parse t = none →
        (load_json filename baseDir fs).1 = .error PyError.jsonDecodeError) ∧
    (∀ t, fs (metricPath baseDir filename) = FileState.content t →
        (load_json filename baseDir fs).1 = .ok (Json.obj []) →
        parse t = some (Json.obj [])) := by
  refine ⟨?_, ?_, ?_, ?_⟩
  · intro h; simp [load_json_eq_fileState, h]
  · intro h; simp [load_json_eq_fileState, h]
  · intro t h hp; simp [load_json_eq_fileState, h, hp]
  · intro t h hok
    simp only [load_json_eq_fileState, h] at hok
    cases hp : parse t
    · simp [hp] at hok
    · simp [hp] at hok
      rw [hok]

/-- Witness for C6: on the all-absent filesystem the loader recovers
with the empty object, and on the malformed compare file it propagates
the decode error. -/
theorem load_json_fallback_exactly_on_missing_witness :
    (load_json "serial_metrics.json" "/srv/app" fsAllAbsent).1 =
      .ok (Json.obj []) ∧
    (load_json "compare_metrics.json" "/srv/app" fsMalformed).1 =
      .error PyError.jsonDecodeError :=
  ⟨(load_json_fallback_exactly_on_missing "serial_metrics.json" "/srv/app"
      fsAllAbsent).1 rfl,
    (load_json_fallback_exactly_on_missing "compare_metrics.json" "/srv/app"
      fsMalformed).2.2.1 "\x7bnot valid\x7d" (by decide) (by rfl)⟩

/-- C8: the index route is independent of the results directory and of
the base directory: any two filesystem states give the identical
response, and with the template present that response is HTTP 200 with
the HTML content type and the template text as body. -/
theorem index_independent_of_results_dir (tpl : TemplateStore)
    (base1 base2 : String) (fs1 fs2 : FS) :
    (handle Route.index tpl base1 fs1).1 =
      (handle Route.index tpl base2 fs2).1 ∧
    (∀ html, tpl "index.html" = some html →
        (handle Route.index tpl base1 fs1).1 =
          ⟨200, "text/html; charset=utf-8", html⟩) := by
  constructor
  · simp [handle]
  · intro html h
    simp [handle, render_template, h]

/-- Witness for C8: with the demonstration template folder, the index
response over the all-absent filesystem equals the one over the
malformed filesystem, and is the 200 HTML page. -/
theorem index_independent_of_results_dir_witness :
    (handle Route.index tplDemo "/srv/app" fsAllAbsent).1 =
      (handle Route.index tplDemo "/srv/other" fsMalformed).1 ∧
    (handle Route.index tplDemo "/srv/app" fsAllAbsent).1 =
      ⟨200, "text/html; charset=utf-8",
        "<html><body>dashboard</body></html>"⟩ :=
  ⟨(index_independent_of_results_dir tplDemo "/srv/app" "/srv/other"
      fsAllAbsent fsMalformed).1,
    (index_independent_of_results_dir tplDemo "/srv/app" "/srv/other"
      fsAllAbsent fsMalformed).2 "<html><body>dashboard</body></html>" rfl⟩

/-- C9: no request mutates the filesystem: every file operation a
handler performs is a read, and the filesystem state after any request
equals the state before it. -/
theorem requests_never_mutate_filesystem (route : Route)
    (tpl : TemplateStore) (baseDir : String) (fs : FS) :
    (handle route tpl baseDir fs).2 = fs := by
  cases route <;> simp [handle, load_json_eq_fileState, render_template]

/-- C10: every metrics operation accepts any document the reader
parses, scalars included: a file holding a JSON scalar yields HTTP 200
with that value serialized as the body, not an error. -/
theorem metrics_accepts_scalar_documents (route : Route) (n : String)
    (hr : routeFile route = some n) (tpl : TemplateStore)
    (baseDir : String) (fs : FS) (t : String) (v : Json)
    (h : fs (metricPath baseDir n) = FileState.content t)
    (hv : parse t = some v) (_hs : isScalar v = true) :
    (handle route tpl baseDir fs).1.status = 200 ∧
    (handle route tpl baseDir fs).1.body = serialize v ∧
    (handle route tpl baseDir fs).1 ≠ errorResponse := by
  have he : (handle route tpl baseDir fs).1 =
      ⟨200, "application/json", serialize v⟩ := by
    rw [handle_metric_eq route n hr tpl baseDir fs]
    simp [load_json_eq_fileState, h, hv, respond, jsonify]
  refine ⟨by rw [he], by rw [he], by rw [he]; simp [errorResponse]⟩

/-- A filesystem whose serial file holds the JSON scalar null. -/
def fsSerialNull : FS := fun p =>
  if p = metricPath "/srv/app" "serial_metrics.json" then
    FileState.content "null"
  else FileState.absent

/-- Witness for C10: with `serial_metrics.json` holding the scalar
null, the serial route answers 200 with body the serialization of
null. -/
theorem metrics_accepts_scalar_documents_witness :
    (handle Route.apiSerial tplDemo "/srv/app" fsSerialNull).1.status = 200 ∧
    (handle Route.apiSerial tplDemo "/srv/app" fsSerialNull).1.body =
      serialize Json.null :=
  have h := metrics_accepts_scalar_documents Route.apiSerial
    "serial_metrics.json" rfl tplDemo "/srv/app" fsSerialNull "null"
    Json.null (by decide) (by rfl) (by rfl)
  ⟨h.1, h.2.1⟩
